import Mathlib

/-!
Verification of the shield mode-switching and register-access protocol
(`shield.c` / `shield.h`).

The development is a shallow embedding of the C module:

* the seven GPIO select lines become `GpioState` (one `Nat` level per line,
  only 0/1 is ever written);
* the process-wide register arrays `internalRegister`, `outputRegister1`,
  `outputRegister2` and the persisted `shield.rebootcount` value become
  `ShieldState`;
* every externally observable transport action (mode switch, SPI write,
  duplex SPI read, mode verification) is recorded in a trace of `Ev` events;
* functions that can terminate the process (the verifier's reboot/exit
  escalation) or run into C undefined behaviour return `Option`, with `none`
  marking "does not return normally / no defined result";
* bytes received from the SPI transport (`bcm2835_spi_transfern`) are inputs
  of the embedded functions, since they come from the environment.

Machine arithmetic: the registers are `uint8_t`, modelled as `Nat` with an
explicit `% 256` at every store; `unsigned int` subtraction wraps modulo
`2 ^ 32` (`usub32`); a C `int` shift with a count `≥ 32` is undefined
behaviour (`cShl1`, `getBit` return `none` there).
-/

/-! ### Constants from shield.h and shield.c -/

/-- enum DigitalMode: plain digital I/O. -/
def DIO : Int := 0

/-- enum DigitalMode: serial peripheral interface. -/
def SPI : Int := 1

/-- enum DigitalMode: serial I/O. -/
def SIO : Int := 2

/-- enum ShieldMode INIT_ALL_LOW = 0x00. -/
def INIT_ALL_LOW : Int := 0x00

/-- enum ShieldMode NONE = 0x70. -/
def NONE : Int := 0x70

/-- enum ShieldMode INTERNAL_REG = 0x78. -/
def INTERNAL_REG : Int := 0x78

/-- enum ShieldMode OUTPUT_REG_1 = 0x79. -/
def OUTPUT_REG_1 : Int := 0x79

/-- enum ShieldMode OUTPUT_REG_2 = 0x7A. -/
def OUTPUT_REG_2 : Int := 0x7A

/-- enum ShieldMode INPUT_REG = 0x7B. -/
def INPUT_REG : Int := 0x7B

/-- enum ShieldMode DAC = 0x7E. -/
def DAC : Int := 0x7E

/-- enum ShieldMode RTC = 0x7D. -/
def RTC : Int := 0x7D

/-- enum ShieldMode ADC = 0x7F. -/
def ADC : Int := 0x7F

/-- bcm2835 HIGH level. -/
def HIGH : Int := 1

/-- bcm2835 LOW level. -/
def LOW : Int := 0

/-- #define MAX_SAMPLING_RETRY_TIME 3. -/
def MAX_SAMPLING_RETRY_TIME : Nat := 3

/-- #define MAX_REBOOT_RETRY_TIME 3. -/
def MAX_REBOOT_RETRY_TIME : Int := 3

/-- #define ADC_MAXIMUM 4095. -/
def ADC_MAXIMUM : Nat := 4095

/-- ADC chip channel-select command bytes (global `adcConversion` array). -/
def adcConversion : List Nat := [0x86, 0x8E, 0x96, 0x9E, 0xA6, 0xAE, 0xB6, 0xBE]

/-! enum PinDigitalOut (CN11_2 = 1 through CN20_4 = 20). -/

def CN11_2 : Nat := 1
def CN11_4 : Nat := 2
def CN12_2 : Nat := 3
def CN12_4 : Nat := 4
def CN13_2 : Nat := 5
def CN13_4 : Nat := 6
def CN14_2 : Nat := 7
def CN14_4 : Nat := 8
def CN15_2 : Nat := 9
def CN15_4 : Nat := 10
def CN16_2 : Nat := 11
def CN16_4 : Nat := 12
def CN17_2 : Nat := 13
def CN17_4 : Nat := 14
def CN18_2 : Nat := 15
def CN18_4 : Nat := 16
def CN19_2 : Nat := 17
def CN19_4 : Nat := 18
def CN20_2 : Nat := 19
def CN20_4 : Nat := 20

/-! ### C machine-arithmetic helpers -/

/-- Subtraction of `unsigned int` values: wraps modulo `2 ^ 32`.
Used where the C code subtracts from a possibly smaller unsigned value. -/
def usub32 (a b : Nat) : Nat := (a + (4294967296 - b % 4294967296)) % 4294967296

/-- C expression `1 << k` at type `int`: defined only for shift counts below
the 32-bit width; a larger count (as produced by `pin_number - 1` for
`pin_number = 0`) is undefined behaviour. -/
def cShl1 (k : Nat) : Option Nat := if k < 32 then some (1 <<< k) else none

/-- Store of `reg | (1 << k)` back into a `uint8_t` register:
the `int` result is truncated to 8 bits. -/
def setBit8 (reg k : Nat) : Nat := (reg ||| (1 <<< k)) % 256

/-- Store of `reg & ~(1 << k)` back into a `uint8_t` register. For `reg < 256`
this equals `reg &&& (255 ^^^ ((1 <<< k) % 256))`: bits of the mask above
bit 7 cannot affect a value below 256, and `(1 <<< k) % 256` is `1 <<< k`
for `k < 8` and `0` for `k ≥ 8`. -/
def clearBit8 (reg k : Nat) : Nat := reg &&& (255 ^^^ ((1 <<< k) % 256))

/-- Macro `getBit(x,n) = ((x >> (n-1)) & 1)` with `n` an `unsigned int`:
for `n = 0` the shift count is `2^32 - 1`, undefined behaviour. -/
def getBit (x n : Nat) : Option Nat :=
  if usub32 n 1 < 32 then some ((x >>> usub32 n 1) &&& 1) else none

/-! ### Mode Selector: SetShieldMode / GetShieldMode -/

/-- Levels of the seven shared select lines GPIO_GEN0 .. GPIO_GEN6
(pin directions are not modelled; only the written levels matter). -/
structure GpioState where
  gen0 : Nat
  gen1 : Nat
  gen2 : Nat
  gen3 : Nat
  gen4 : Nat
  gen5 : Nat
  gen6 : Nat
deriving DecidableEq

/-- A line state with every select line low. -/
def initGpio : GpioState :=
  { gen0 := 0, gen1 := 0, gen2 := 0, gen3 := 0, gen4 := 0, gen5 := 0, gen6 := 0 }

/-- `SetShieldMode(mode)`: re-asserts the lines as outputs (not modelled),
drives GEN6..GEN3 high, then drives the lines for `mode`; the C `switch`
shares one body between `default:` and `case ADC:`, so any unlisted mode
value gets the ADC pattern. The `usleep` settle delays are not modelled. -/
def SetShieldMode (mode : Int) (g : GpioState) : GpioState :=
  let g1 : GpioState := { g with gen6 := 1, gen5 := 1, gen4 := 1, gen3 := 1 }
  if mode = INIT_ALL_LOW then
    { g1 with gen6 := 0, gen5 := 0, gen4 := 0, gen3 := 0, gen2 := 0, gen1 := 0, gen0 := 0 }
  else if mode = NONE then
    { g1 with gen3 := 0, gen2 := 0, gen1 := 0, gen0 := 0 }
  else if mode = DAC then
    { g1 with gen2 := 1, gen1 := 1, gen0 := 0 }
  else if mode = RTC then
    { g1 with gen2 := 1, gen1 := 0, gen0 := 1 }
  else if mode = INTERNAL_REG then
    { g1 with gen2 := 0, gen1 := 0, gen0 := 0 }
  else if mode = OUTPUT_REG_1 then
    { g1 with gen2 := 0, gen1 := 0, gen0 := 1 }
  else if mode = OUTPUT_REG_2 then
    { g1 with gen2 := 0, gen1 := 1, gen0 := 0 }
  else if mode = INPUT_REG then
    { g1 with gen2 := 0, gen1 := 1, gen0 := 1 }
  else
    { g1 with gen2 := 1, gen1 := 1, gen0 := 1 }

/-- `GetShieldMode()`: reads the seven lines back as one integer,
GEN6 as the most-significant bit. -/
def GetShieldMode (g : GpioState) : Int :=
  (((g.gen6 <<< 6) + (g.gen5 <<< 5) + (g.gen4 <<< 4) + (g.gen3 <<< 3) +
    (g.gen2 <<< 2) + (g.gen1 <<< 1) + g.gen0 : Nat) : Int)

/-! ### Mode Verifier: VerifyAndFixShieldMode -/

/-- How a call to `VerifyAndFixShieldMode` ends. `polls` counts the calls
made to `GetShieldMode` (one per evaluation of the `while` condition).
`returned p` : the `p`-th sample matched and the function returned normally.
`exited p c` : the reboot counter exceeded MAX_REBOOT_RETRY_TIME, the counter
was persisted as `c` (reset to 0) and the process exited without rebooting.
`rebooted p c` : the counter was persisted as `c` (incremented) and an
operating-system reboot was issued, then the process exited. -/
inductive VerifyOutcome where
  | returned (polls : Nat)
  | exited (polls : Nat) (persisted : Int)
  | rebooted (polls : Nat) (persisted : Int)
deriving DecidableEq

/-- Number of `GetShieldMode` samples the outcome records. -/
def VerifyOutcome.polls : VerifyOutcome → Nat
  | .returned p => p
  | .exited p _ => p
  | .rebooted p _ => p

/-- The sampling loop of `VerifyAndFixShieldMode`. The C loop keeps a
`sampling_count` starting at 1 and escalates inside the body once
`sampling_count > MAX_SAMPLING_RETRY_TIME`; here `remaining` is the number
of loop-body passes still allowed before that test fires, i.e.
`remaining = MAX_SAMPLING_RETRY_TIME + 1 - sampling_count`, so the loop
condition (one `GetShieldMode` sample per evaluation) runs at most
`MAX_SAMPLING_RETRY_TIME + 1` times. `gm n` is the result of the
`(n+1)`-th call to `GetShieldMode`; `counter` is the persisted value read
by `GetParamInt("shield.rebootcount")`. -/
def verifyLoop (gm : Nat → Int) (mode counter : Int) (polls : Nat) : Nat → VerifyOutcome
  | 0 =>
    if gm polls = mode then .returned (polls + 1)
    else if counter > MAX_REBOOT_RETRY_TIME then .exited (polls + 1) 0
    else .rebooted (polls + 1) (counter + 1)
  | r + 1 =>
    if gm polls = mode then .returned (polls + 1)
    else verifyLoop gm mode counter (polls + 1) r

/-- `VerifyAndFixShieldMode(mode)` against a stream `gm` of sampled modes and
a persisted reboot counter. -/
def VerifyAndFixShieldMode (gm : Nat → Int) (mode counter : Int) : VerifyOutcome :=
  verifyLoop gm mode counter 0 MAX_SAMPLING_RETRY_TIME

/-! ### Shield state and the composed verifier -/

/-- The process-wide mutable state of shield.c: the select lines, the two
bytes of each register array, and the persisted reboot counter. -/
structure ShieldState where
  gpio : GpioState
  internalRegister0 : Nat
  internalRegister1 : Nat
  outputRegister1_0 : Nat
  outputRegister1_1 : Nat
  outputRegister2_0 : Nat
  outputRegister2_1 : Nat
  rebootCounter : Int
deriving DecidableEq

/-- The initial values of the global register arrays:
`internalRegister = {0xFF, 0xFF}`, both output registers `{0x00, 0x00}`. -/
def initState : ShieldState :=
  { gpio := initGpio
    internalRegister0 := 0xFF
    internalRegister1 := 0xFF
    outputRegister1_0 := 0x00
    outputRegister1_1 := 0x00
    outputRegister2_0 := 0x00
    outputRegister2_1 := 0x00
    rebootCounter := 0 }

/-- Well-formedness: each register byte holds a `uint8_t` value. -/
def wfRegs (s : ShieldState) : Prop :=
  s.internalRegister0 < 256 ∧ s.internalRegister1 < 256 ∧
  s.outputRegister1_0 < 256 ∧ s.outputRegister1_1 < 256 ∧
  s.outputRegister2_0 < 256 ∧ s.outputRegister2_1 < 256

/-- An in-process call `VerifyAndFixShieldMode(mode)`: the sampled stream is
constant (reading the lines does not change them), the counter is the
persisted one. A `returned` outcome continues with the same state; the two
escalation outcomes terminate the process (reboot or exit), modelled as
`none`. -/
def verifyAndFixC (mode : Int) (s : ShieldState) : Option ShieldState :=
  match VerifyAndFixShieldMode (fun _ => GetShieldMode s.gpio) mode s.rebootCounter with
  | .returned _ => some s
  | .exited _ _ => none
  | .rebooted _ _ => none

/-! ### Observable transport events -/

/-- Externally observable actions of a pin-level API call. -/
inductive Ev where
  | setMode (mode : Int)
  | verify (mode : Int)
  | spiWrite (bytes : List Nat)
  | spiTransfer (byte : Nat)
  | spiTransferRead (n : Nat)
deriving DecidableEq

/-- Return value of an API result. -/
def rVal {α : Type} (r : Option (α × ShieldState × List Ev)) : Option α :=
  r.map fun x => x.1

/-- Event trace of an API result (empty if the call did not return). -/
def rTrace {α : Type} (r : Option (α × ShieldState × List Ev)) : List Ev :=
  (r.map fun x => x.2.2).getD []

/-- Mode latched on the select lines when the call returned. -/
def stMode {α : Type} (r : Option (α × ShieldState × List Ev)) : Option Int :=
  r.map fun x => GetShieldMode x.2.1.gpio

/-- The call returned, left the select lines in the idle NONE pattern, and its
last two observable actions were the switch to NONE and its verification. -/
def endsIdle {α : Type} : Option (α × ShieldState × List Ev) → Prop
  | some (_, s', tr) =>
      GetShieldMode s'.gpio = NONE ∧ List.IsSuffix [ Ev.setMode NONE, Ev.verify NONE] tr
  | none => False

/-! ### Public Pin API (numeric convention) -/

/-- Success continuation of `PinMode`: enter INTERNAL_REG mode and transmit
the (already mutated) two register bytes, then return 0. No switch back to
NONE and no verification happen on this path. -/
def pinModeFinish (s : ShieldState) : Option (Int × ShieldState × List Ev) :=
  let s1 := { s with gpio := SetShieldMode INTERNAL_REG s.gpio }
  some (0, s1, [ Ev.setMode INTERNAL_REG,
                 Ev.spiWrite [s1.internalRegister0, s1.internalRegister1]])

/-- Rejection continuation of `PinMode`: force the bus to NONE, verify, and
fail with -1. No register byte is touched. -/
def pinModeReject (s : ShieldState) : Option (Int × ShieldState × List Ev) :=
  let s1 := { s with gpio := SetShieldMode NONE s.gpio }
  match verifyAndFixC NONE s1 with
  | none => none
  | some s2 => some (-1, s2, [ Ev.setMode NONE, Ev.verify NONE])

/-- `PinMode(pin_number, mode)` (the shielded build, PURE_RPI_V2 not set):
validates `pin_number ∈ [1,10]`, updates the internal register for DIO/SPI/SIO
(SIO on port 10 stores `1 << 9` into the `uint8_t` `internalRegister[0]`,
which truncates to 0 — kept as in the source), rejects SPI on ports 9/10 and
SIO on any port but 10, and otherwise transmits the internal register in
INTERNAL_REG mode. A mode value other than DIO/SPI/SIO falls through the
`if`/`else if` chain without touching the register and is still
transmitted. -/
def PinMode (pin_number : Nat) (mode : Int) (s : ShieldState) :
    Option (Int × ShieldState × List Ev) :=
  if pin_number > 10 ∨ pin_number < 1 then some (-1, s, [])
  else if mode = DIO then
    pinModeFinish
      (if pin_number < 9 then
        { s with internalRegister1 := clearBit8 s.internalRegister1 (pin_number - 1) }
      else
        { s with internalRegister0 := clearBit8 s.internalRegister0 (pin_number - 9) })
  else if mode = SPI then
    if pin_number < 9 then
      pinModeFinish
        { s with internalRegister1 := setBit8 s.internalRegister1 (pin_number - 1) }
    else pinModeReject s
  else if mode = SIO then
    if pin_number = 10 then
      pinModeFinish
        { s with internalRegister0 := setBit8 s.internalRegister0 (pin_number - 1) }
    else pinModeReject s
  else pinModeFinish s

/-- `DigitalWrite(pin_number, value)`: read-modify-write of the owning output
register byte, transmission in the owning mode, then switch back to NONE and
verify. Pins above 20 are rejected (forced NONE, verify, -1). `pin_number = 0`
falls into the `pin_number <= 8` branch, where the C code computes
`1 << (pin_number - 1)` with an unsigned wrap-around shift count of
`2^32 - 1`: undefined behaviour, modelled as `none`. -/
def DigitalWrite (pin_number : Nat) (value : Int) (s : ShieldState) :
    Option (Int × ShieldState × List Ev) :=
  if pin_number ≤ 8 then
    match cShl1 (usub32 pin_number 1) with
    | none => none
    | some m =>
      let r := if value = HIGH then (s.outputRegister1_1 ||| m) % 256
               else s.outputRegister1_1 &&& (255 ^^^ (m % 256))
      let s1 := { s with outputRegister1_1 := r }
      let s2 := { s1 with gpio := SetShieldMode OUTPUT_REG_1 s1.gpio }
      let s3 := { s2 with gpio := SetShieldMode NONE s2.gpio }
      match verifyAndFixC NONE s3 with
      | none => none
      | some s4 =>
        some (0, s4, [ Ev.setMode OUTPUT_REG_1,
                       Ev.spiWrite [s1.outputRegister1_0, s1.outputRegister1_1],
                       Ev.setMode NONE, Ev.verify NONE])
  else if 9 ≤ pin_number ∧ pin_number ≤ 16 then
    let r := if value = HIGH then setBit8 s.outputRegister1_0 (pin_number - 9)
             else clearBit8 s.outputRegister1_0 (pin_number - 9)
    let s1 := { s with outputRegister1_0 := r }
    let s2 := { s1 with gpio := SetShieldMode OUTPUT_REG_1 s1.gpio }
    let s3 := { s2 with gpio := SetShieldMode NONE s2.gpio }
    match verifyAndFixC NONE s3 with
    | none => none
    | some s4 =>
      some (0, s4, [ Ev.setMode OUTPUT_REG_1,
                     Ev.spiWrite [s1.outputRegister1_0, s1.outputRegister1_1],
                     Ev.setMode NONE, Ev.verify NONE])
  else if 17 ≤ pin_number ∧ pin_number ≤ 20 then
    let r := if value = HIGH then setBit8 s.outputRegister2_1 (pin_number - 17)
             else clearBit8 s.outputRegister2_1 (pin_number - 17)
    let s1 := { s with outputRegister2_1 := r }
    let s2 := { s1 with gpio := SetShieldMode OUTPUT_REG_2 s1.gpio }
    let s3 := { s2 with gpio := SetShieldMode NONE s2.gpio }
    match verifyAndFixC NONE s3 with
    | none => none
    | some s4 =>
      some (0, s4, [ Ev.setMode OUTPUT_REG_2,
                     Ev.spiWrite [s1.outputRegister2_0, s1.outputRegister2_1],
                     Ev.setMode NONE, Ev.verify NONE])
  else
    let s1 := { s with gpio := SetShieldMode NONE s.gpio }
    match verifyAndFixC NONE s1 with
    | none => none
    | some s2 => some (-1, s2, [ Ev.setMode NONE, Ev.verify NONE])

/-- `DigitalRead(pin_number)`: always performs the 2-byte duplex read of the
input register (bytes `in0`, `in1` supplied by the environment), returns to
NONE and verifies, then extracts the pin's bit — pins 1-8 from
`inputRegister[1]`, pins 9-10 from `inputRegister[0]` — or returns -1 for
pins above 10. For `pin_number = 0` the `getBit` macro shifts by `2^32 - 1`:
undefined behaviour, modelled as `none`. -/
def DigitalRead (pin_number in0 in1 : Nat) (s : ShieldState) :
    Option (Int × ShieldState × List Ev) :=
  let s1 := { s with gpio := SetShieldMode INPUT_REG s.gpio }
  let s2 := { s1 with gpio := SetShieldMode NONE s1.gpio }
  match verifyAndFixC NONE s2 with
  | none => none
  | some s3 =>
    let tr := [ Ev.setMode INPUT_REG, Ev.spiTransferRead 2,
                Ev.setMode NONE, Ev.verify NONE]
    if pin_number ≤ 8 then
      match getBit in1 pin_number with
      | none => none
      | some b => some ((b : Int), s3, tr)
    else if pin_number ≤ 10 then
      match getBit in0 (pin_number - 8) with
      | none => none
      | some b => some ((b : Int), s3, tr)
    else some (-1, s3, tr)

/-- `AnalogRead(port_num)` with the two bytes `b0`, `b1` received by the
duplex read. Ports above 7 log and return 0 untouched. The raw sample is
`(b0 << 8) + b1`; a value above ADC_MAXIMUM is masked
(`((b0 & 0x0F) << 8) + b1`) and returned at once — on that path the function
does not switch back to NONE and does not verify. -/
def AnalogRead (port_num b0 b1 : Nat) (s : ShieldState) :
    Option (Nat × ShieldState × List Ev) :=
  if port_num > 7 then some (0, s, [])
  else
    let s1 := { s with gpio := SetShieldMode ADC s.gpio }
    let result := (b0 <<< 8) + b1
    if result > ADC_MAXIMUM then
      some (((b0 &&& 0x0F) <<< 8) + b1, s1,
            [ Ev.setMode ADC, Ev.spiTransfer (adcConversion.getD port_num 0),
              Ev.spiTransferRead 2])
    else
      let s2 := { s1 with gpio := SetShieldMode NONE s1.gpio }
      match verifyAndFixC NONE s2 with
      | none => none
      | some s3 =>
        some (result, s3,
              [ Ev.setMode ADC, Ev.spiTransfer (adcConversion.getD port_num 0),
                Ev.spiTransferRead 2, Ev.setMode NONE, Ev.verify NONE])

/-- `AnalogWrite(adc_addr, mv_value)`: clamps the millivolt value to 2230 and
the DAC address to 1, primes the converter in ADC mode (the code sends the
first byte of the string literals "0x68" and "0x86", i.e. the character '0' =
0x30, and performs a discarded 2-byte duplex read), then transmits the 3-byte
DAC command in DAC mode and returns to NONE with verification. The C code
computes the scale factor `mv * 1.8363228` in `float`; no claim refers to the
command bytes, and the scaling is modelled by exact arithmetic on the same
decimal constant (`cmd1 = trunc(dac/16)`, `cmd2 = (floor(dac + 0.5) % 16)
<< 4`). -/
def AnalogWrite (adc_addr mv_value : Nat) (s : ShieldState) :
    Option (Unit × ShieldState × List Ev) :=
  let mv := if mv_value > 2230 then 2230 else mv_value
  let addr := if adc_addr > 1 then 1 else adc_addr
  let cmd0 := 0x30 + addr
  let cmd1 := (mv * 18363228) / 160000000
  let cmd2 := (((2 * (mv * 18363228) + 10000000) / 20000000) % 16) <<< 4
  let s1 := { s with gpio := SetShieldMode ADC s.gpio }
  let s2 := { s1 with gpio := SetShieldMode DAC s1.gpio }
  let s3 := { s2 with gpio := SetShieldMode NONE s2.gpio }
  match verifyAndFixC NONE s3 with
  | none => none
  | some s4 =>
    some ((), s4, [ Ev.setMode ADC, Ev.spiWrite [0x30], Ev.spiWrite [0x30],
                    Ev.spiTransferRead 2, Ev.setMode DAC,
                    Ev.spiWrite [cmd0, cmd1, cmd2],
                    Ev.setMode NONE, Ev.verify NONE])

/-! ### Public Pin API (name-based RPC convention) -/

/-- Digit-folding loop of `atoi` after sign handling. -/
def atoiLoop : List Char → Nat → Nat
  | c :: cs, acc => if c.isDigit then atoiLoop cs (acc * 10 + (c.toNat - 48)) else acc
  | [], acc => acc

/-- C `atoi`: skip leading white space, take an optional sign, then fold
decimal digits; an empty digit run yields 0. -/
def catoi (cs : List Char) : Int :=
  match cs.dropWhile (fun c => c == ' ' || c == '\t' || c == '\n' ||
                               c == '\x0b' || c == '\x0c' || c == '\r') with
  | '-' :: rest => -((atoiLoop rest 0 : Nat) : Int)
  | '+' :: rest => ((atoiLoop rest 0 : Nat) : Int)
  | rest => ((atoiLoop rest 0 : Nat) : Int)

/-- Conversion of a C `int` to `unsigned int` (reduction modulo `2 ^ 32`),
as happens when a parsed port number is passed to `PinMode`. -/
def intToUInt (i : Int) : Nat := (i % 4294967296).toNat

/-- `strncmp(a, b, n) == 0`: the first `n` characters agree, treating the end
of either string as its terminator. -/
def strncmpEq : List Char → List Char → Nat → Bool
  | _, _, 0 => true
  | [], [], _ + 1 => true
  | [], _ :: _, _ + 1 => false
  | _ :: _, [], _ + 1 => false
  | a :: as, b :: bs, n + 1 => if a = b then strncmpEq as bs n else false

/-- The successive tokens produced by `strtok(s, "."), strtok(NULL, "."), ...`:
maximal runs of non-delimiter characters. -/
def strtokAll (cs : List Char) (delim : Char) : List (List Char) :=
  (cs.splitOnP (fun c => c == delim)).filter (fun t => !t.isEmpty)

/-- `RpcChangeMode(param, value)`: parses the two characters after
"shield.cn" as the port number (minus 10) and picks the digital mode by
prefix comparison on `value`. The `mode` variable is initialised to SPI
(the source comment "Default mode is DIO" notwithstanding), so any value
matching none of the prefixes "d", "sp", "si" requests SPI. A `param`
shorter than "shield.cn" would make `strncpy` read past the argument:
modelled as `none`. -/
def RpcChangeMode (param value : String) (s : ShieldState) :
    Option (Int × ShieldState × List Ev) :=
  if param.data.length < 9 then none
  else
    let port_str := (param.data.drop 9).take 2
    let port_num : Int := catoi port_str - 10
    let mode : Int :=
      if strncmpEq [ 'd', 'i', 'o'] value.data 1 then DIO
      else if strncmpEq [ 's', 'p', 'i'] value.data 2 then SPI
      else if strncmpEq [ 's', 'i', 'o'] value.data 2 then SIO
      else SPI
    PinMode (intToUInt port_num) mode s

/-- Tail of `RpcPinWrite` once a digit case of the `switch` matched:
`pinMap` is `some pin` when `pin_num` selected the `_2` or `_4` pin and
`none` when `pin_map_num` would be read uninitialised (undefined behaviour).
The result of the `PinMode` call is ignored by the code; the result of
`DigitalWrite` is returned. -/
def rpcDoWrite (pinMap : Option Nat) (port_str : List Char) (value_num : Int)
    (s : ShieldState) : Option (Int × ShieldState × List Ev) :=
  match pinMap with
  | none => none
  | some pin_map_num =>
    match PinMode (intToUInt (catoi port_str - 10)) DIO s with
    | none => none
    | some (_, s1, tr1) =>
      match DigitalWrite pin_map_num value_num s1 with
      | none => none
      | some (r, s2, tr2) => some (r, s2, tr1 ++ tr2)

/-- `RpcPinWrite(param, value)` (shielded build): rejects a NULL/empty or
'g'-prefixed name and a value whose `atoi` is neither 0 nor 1; then
tokenises the name on '.', skips two characters of the second token
("cn"), reads the second character of the rest as the port digit and maps
pin 2/4 of that port, and finally calls `PinMode(port-10, DIO)` followed by
`DigitalWrite`. A missing second or third token leads to NULL-pointer
arithmetic or `atoi(NULL)` (undefined behaviour, `none`); a second token
shorter than "cnX" makes the `switch` read past the token (not modelled,
`none`); a matched port digit with a pin other than 2/4 uses `pin_map_num`
uninitialised (undefined behaviour, `none`). The `switch` default frees the
copy and returns -1. -/
def RpcPinWrite (param value : String) (s : ShieldState) :
    Option (Int × ShieldState × List Ev) :=
  if param.data.isEmpty || param.data.head? == some 'g' then some (-1, s, [])
  else
    let value_num := catoi value.data
    if value_num ≠ 0 ∧ value_num ≠ 1 then some (-1, s, [])
    else
      let toks := strtokAll param.data '.'
      match toks.head? with
      | none => some (-1, s, [])
      | some _ =>
        match toks.get? 1 with
        | none => none
        | some portTok =>
          if portTok.length < 2 then none
          else
            let port_str := portTok.drop 2
            match toks.get? 2 with
            | none => none
            | some pinTok =>
              let pin_num := catoi pinTok
              if port_str.isEmpty then none
              else
                match (port_str.drop 1).headD (Char.ofNat 0) with
                | '1' => rpcDoWrite (if pin_num = 2 then some CN11_2
                                     else if pin_num = 4 then some CN11_4
                                     else none) port_str value_num s
                | '2' => rpcDoWrite (if pin_num = 2 then some CN12_2
                                     else if pin_num = 4 then some CN12_4
                                     else none) port_str value_num s
                | '3' => rpcDoWrite (if pin_num = 2 then some CN13_2
                                     else if pin_num = 4 then some CN13_4
                                     else none) port_str value_num s
                | '4' => rpcDoWrite (if pin_num = 2 then some CN14_2
                                     else if pin_num = 4 then some CN14_4
                                     else none) port_str value_num s
                | '5' => rpcDoWrite (if pin_num = 2 then some CN15_2
                                     else if pin_num = 4 then some CN15_4
                                     else none) port_str value_num s
                | '6' => rpcDoWrite (if pin_num = 2 then some CN16_2
                                     else if pin_num = 4 then some CN16_4
                                     else none) port_str value_num s
                | '7' => rpcDoWrite (if pin_num = 2 then some CN17_2
                                     else if pin_num = 4 then some CN17_4
                                     else none) port_str value_num s
                | '8' => rpcDoWrite (if pin_num = 2 then some CN18_2
                                     else if pin_num = 4 then some CN18_4
                                     else none) port_str value_num s
                | '9' => rpcDoWrite (if pin_num = 2 then some CN19_2
                                     else if pin_num = 4 then some CN19_4
                                     else none) port_str value_num s
                | '0' => rpcDoWrite (if pin_num = 2 then some CN20_2
                                     else if pin_num = 4 then some CN20_4
                                     else none) port_str value_num s
                | _ => some (-1, s, [])

/-! ### Helper lemmas -/

/-- Unsigned subtraction by one on a small positive operand is plain
subtraction. -/
theorem usub32_one {pin : Nat} (h1 : 1 ≤ pin) (h2 : pin ≤ 30) : usub32 pin 1 = pin - 1 := by
  unfold usub32
  omega

/-- A composed verification succeeds at once when the lines already hold the
requested mode: the first sample matches, nothing escalates. -/

theorem verifyAndFixC_eq (mode : Int) (s : ShieldState) (h : GetShieldMode s.gpio = mode) :
    verifyAndFixC mode s = some s := by
  unfold verifyAndFixC VerifyAndFixShieldMode MAX_SAMPLING_RETRY_TIME verifyLoop
  simp [h]

/-- C1 (amended): when every sample of GetMode differs from the requested mode,
VerifyAndFix(mode) polls GetMode exactly 4 times (the initial sample plus the
three retry samples) and then reads the persisted reboot counter; if the
counter exceeds 3 it resets the counter to zero and terminates the process
without issuing a reboot command, otherwise it increments and persists the
counter and issues an operating-system reboot; in either case the function
never returns normally to its caller. -/
theorem verifyAndFix_mismatch_escalates (gm : Nat → Int) (mode counter : Int) (h : ∀ n, gm n ≠ mode) :
    VerifyAndFixShieldMode gm mode counter =
      (if counter > MAX_REBOOT_RETRY_TIME then VerifyOutcome.exited 4 0
       else VerifyOutcome.rebooted 4 (counter + 1)) ∧
    (∀ p, VerifyAndFixShieldMode gm mode counter ≠ VerifyOutcome.returned p) := by
  have e : VerifyAndFixShieldMode gm mode counter =
      (if counter > MAX_REBOOT_RETRY_TIME then VerifyOutcome.exited 4 0
       else VerifyOutcome.rebooted 4 (counter + 1)) := by
    unfold VerifyAndFixShieldMode MAX_SAMPLING_RETRY_TIME
    simp [verifyLoop, h 0, h 1, h 2, h 3]
  refine ⟨e, ?_⟩
  intro p
  rw [e]
  by_cases hc : counter > MAX_REBOOT_RETRY_TIME
  · simp [hc]
  · simp [hc]

/-- C1 counterexample: with a GetMode stream that never matches and a
persisted counter of 2, the code makes 4 GetShieldMode polls before reading
the counter and rebooting (persisting 3), not the 3 polls the claim states. -/
theorem verifyAndFix_poll_count_counterexample :
    VerifyAndFixShieldMode (fun _ => 0) NONE 2 = VerifyOutcome.rebooted 4 3 ∧
    VerifyOutcome.polls (VerifyAndFixShieldMode (fun _ => 0) NONE 2) = 4 ∧
    (4 : Nat) ≠ 3 := by
  refine ⟨?_, ?_, by decide⟩ <;> decide

/-- C1 witness: the amended theorem instantiated at a never-matching stream
and counter 2: four polls, counter persisted as 3, reboot issued. -/
theorem verifyAndFix_mismatch_escalates_witness :
    VerifyAndFixShieldMode (fun _ => (0 : Int)) NONE 2 = VerifyOutcome.rebooted 4 (2 + 1) := by
  have h := (verifyAndFix_mismatch_escalates (fun _ => (0 : Int)) NONE 2 (fun _ => (by decide : (0 : Int) ≠ NONE))).1
  rw [if_neg (by decide)] at h
  exact h

/-- C2 (amended): for each of the nine ShieldMode values, SetMode drives the
seven select lines to that mode's unique 7-bit pattern - a pattern in the
1111xxx family for every mode except InitAllLow (0000000) and None
(1110000) - and a subsequent GetMode, which concatenates the seven line
levels with line 6 as the most-significant bit, returns exactly that mode's
numeric code (round trip: GetMode after SetMode(m) equals m; uniqueness of
the patterns follows from the round trip). -/
theorem setMode_getMode_roundtrip (g : GpioState) :
    GetShieldMode (SetShieldMode INIT_ALL_LOW g) = INIT_ALL_LOW ∧
    GetShieldMode (SetShieldMode NONE g) = NONE ∧
    GetShieldMode (SetShieldMode INTERNAL_REG g) = INTERNAL_REG ∧
    GetShieldMode (SetShieldMode OUTPUT_REG_1 g) = OUTPUT_REG_1 ∧
    GetShieldMode (SetShieldMode OUTPUT_REG_2 g) = OUTPUT_REG_2 ∧
    GetShieldMode (SetShieldMode INPUT_REG g) = INPUT_REG ∧
    GetShieldMode (SetShieldMode DAC g) = DAC ∧
    GetShieldMode (SetShieldMode RTC g) = RTC ∧
    GetShieldMode (SetShieldMode ADC g) = ADC ∧
    GetShieldMode (SetShieldMode INIT_ALL_LOW g) = 0 ∧
    GetShieldMode (SetShieldMode INTERNAL_REG g) / 8 = 15 ∧
    GetShieldMode (SetShieldMode OUTPUT_REG_1 g) / 8 = 15 ∧
    GetShieldMode (SetShieldMode OUTPUT_REG_2 g) / 8 = 15 ∧
    GetShieldMode (SetShieldMode INPUT_REG g) / 8 = 15 ∧
    GetShieldMode (SetShieldMode DAC g) / 8 = 15 ∧
    GetShieldMode (SetShieldMode RTC g) / 8 = 15 ∧
    GetShieldMode (SetShieldMode ADC g) / 8 = 15 :=
  by
  refine ⟨rfl, rfl, rfl, rfl, rfl, rfl, rfl, rfl, rfl, rfl, ?_, ?_, ?_, ?_, ?_, ?_, ?_⟩ <;>
    simp [SetShieldMode, GetShieldMode, INIT_ALL_LOW, NONE, DAC, RTC, INTERNAL_REG,
          OUTPUT_REG_1, OUTPUT_REG_2, INPUT_REG, ADC]

/-- C2 counterexample: None is not InitAllLow, yet the pattern SetMode(None)
drives (1110000) is not in the 1111xxx family - its four high bits are 1110,
not 1111. -/
theorem none_pattern_family_counterexample :
    (NONE : Int) ≠ INIT_ALL_LOW ∧
    GetShieldMode (SetShieldMode NONE initGpio) / 8 ≠ 15 := by
  decide

/-- C3: for all segments 1-10 and modes {DIO, SPI, SIO}, SetBusMode (PinMode)
accepts the assignment if and only if (mode = SPI implies segment <= 8) and
(mode = SIO implies segment = 10); every rejected combination returns -1,
leaves InternalRegister unmutated, and forces the bus to None with a
verification before returning. -/
theorem pinMode_accept_iff (pin : Nat) (mode : Int) (s : ShieldState)
    (h1 : 1 ≤ pin) (h2 : pin ≤ 10) (hm : mode = DIO ∨ mode = SPI ∨ mode = SIO) :
    (((mode ≠ SPI ∨ pin ≤ 8) ∧ (mode ≠ SIO ∨ pin = 10)) →
      ∃ s' tr, PinMode pin mode s = some (0, s', tr)) ∧
    (¬((mode ≠ SPI ∨ pin ≤ 8) ∧ (mode ≠ SIO ∨ pin = 10)) →
      ∃ s', PinMode pin mode s = some (-1, s', [ Ev.setMode NONE, Ev.verify NONE]) ∧
        s'.internalRegister0 = s.internalRegister0 ∧
        s'.internalRegister1 = s.internalRegister1 ∧
        GetShieldMode s'.gpio = NONE) := by
  have hrange : ¬(pin > 10 ∨ pin < 1) := by omega
  have hrej : pinModeReject s =
      some (-1, { s with gpio := SetShieldMode NONE s.gpio },
            [ Ev.setMode NONE, Ev.verify NONE]) := by
    have hv := verifyAndFixC_eq NONE { s with gpio := SetShieldMode NONE s.gpio } rfl
    simp [pinModeReject, hv]
  rcases hm with hm | hm | hm <;> subst hm
  · -- DIO: always accepted
    constructor
    · intro _
      unfold PinMode
      rw [if_neg hrange, if_pos rfl]
      by_cases h9 : pin < 9 <;> simp [h9, pinModeFinish]
    · intro hno
      exact absurd ⟨Or.inl (by decide), Or.inl (by decide)⟩ hno
  · -- SPI: accepted iff pin ≤ 8
    constructor
    · intro hyes
      have h8 : pin ≤ 8 := by
        rcases hyes.1 with h | h
        · exact absurd rfl h
        · exact h
      unfold PinMode
      rw [if_neg hrange, if_neg (by decide), if_pos rfl, if_pos (by omega)]
      simp [pinModeFinish]
    · intro hno
      have h9 : ¬(pin < 9) := by
        by_contra hc
        exact hno ⟨Or.inr (by omega), Or.inl (by decide)⟩
      unfold PinMode
      rw [if_neg hrange, if_neg (by decide), if_pos rfl, if_neg h9, hrej]
      exact ⟨_, rfl, rfl, rfl, rfl⟩
  · -- SIO: accepted iff pin = 10
    constructor
    · intro hyes
      have h10 : pin = 10 := by
        rcases hyes.2 with h | h
        · exact absurd rfl h
        · exact h
      unfold PinMode
      rw [if_neg hrange, if_neg (by decide), if_neg (by decide), if_pos rfl, if_pos h10]
      simp [pinModeFinish]
    · intro hno
      have h10 : ¬(pin = 10) := by
        by_contra hc
        exact hno ⟨Or.inl (by decide), Or.inr hc⟩
      unfold PinMode
      rw [if_neg hrange, if_neg (by decide), if_neg (by decide), if_pos rfl, if_neg h10, hrej]
      exact ⟨_, rfl, rfl, rfl, rfl⟩

/-- C3 witness: SPI on segment 9 is rejected: -1, internal register bytes
unchanged, bus forced to None and verified. -/
theorem pinMode_accept_iff_witness :
    ∃ s', PinMode 9 SPI initState = some (-1, s', [ Ev.setMode NONE, Ev.verify NONE]) ∧
      s'.internalRegister0 = initState.internalRegister0 ∧
      s'.internalRegister1 = initState.internalRegister1 ∧
      GetShieldMode s'.gpio = NONE :=
  (pinMode_accept_iff 9 SPI initState (by decide) (by decide) (by decide)).2 (by decide)

/-- Bit view of a `uint8_t` `reg |= 1 << k` store. -/
theorem or8_testBit (reg k i : Nat) (hreg : reg < 256) (hk : k < 8) :
    ((reg ||| 1 <<< k) % 256).testBit i = if i = k then true else reg.testBit i := by
  have hpow : (1 <<< k) = 2 ^ k := by rw [Nat.shiftLeft_eq, one_mul]
  have hlt : reg ||| 1 <<< k < 256 := by
    rw [hpow]
    exact Nat.or_lt_two_pow (n := 8) hreg
      (Nat.pow_lt_pow_right (by norm_num) hk)
  rw [Nat.mod_eq_of_lt hlt, Nat.testBit_or, hpow]
  by_cases hik : i = k
  · subst hik
    simp [Nat.testBit_two_pow_self]
  · simp [Nat.testBit_two_pow_of_ne (fun h => hik h.symm), hik]

/-- Bit view of a `uint8_t` `reg &= ~(1 << k)` store. -/
theorem and8_testBit (reg k i : Nat) (hreg : reg < 256) (hk : k < 8) :
    (reg &&& (255 ^^^ 1 <<< k % 256)).testBit i = if i = k then false else reg.testBit i := by
  have hpow : (1 <<< k) % 256 = 2 ^ k := by
    rw [Nat.shiftLeft_eq, one_mul]
    exact Nat.mod_eq_of_lt (Nat.pow_lt_pow_right (by norm_num) hk)
  have h255 : (255 : Nat) = 2 ^ 8 - 1 := by norm_num
  rw [hpow, Nat.testBit_and, Nat.testBit_xor, h255, Nat.testBit_two_pow_sub_one]
  by_cases hik : i = k
  · subst hik
    simp [Nat.testBit_two_pow_self, hk]
  · rw [if_neg hik]
    by_cases hi8 : i < 8
    · simp [Nat.testBit_two_pow_of_ne (fun h => hik h.symm), hi8]
    · have h2i : (256 : Nat) ≤ 2 ^ i := by
        calc (256 : Nat) = 2 ^ 8 := by norm_num
          _ ≤ 2 ^ i := Nat.pow_le_pow_right (by norm_num) (by omega)
      have hfalse : reg.testBit i = false :=
        Nat.testBit_lt_two_pow (lt_of_lt_of_le hreg h2i)
      simp [Nat.testBit_two_pow_of_ne (fun h => hik h.symm), hi8, hfalse]

/-- Verification right after switching to None always returns: the lines
read back exactly the None pattern. -/
theorem verify_none_mk (g : GpioState) (a b c d e f : Nat) (rc : Int) :
    verifyAndFixC NONE (ShieldState.mk (SetShieldMode NONE g) a b c d e f rc) =
      some (ShieldState.mk (SetShieldMode NONE g) a b c d e f rc) :=
  verifyAndFixC_eq NONE _ rfl

/-- C4: for every output pin in 1-20 and level in {0,1}, after
WriteOutputPin(pin, level) the owning output register byte pair has exactly
the bit assigned to that pin equal to level, and every other bit of both
output registers is unchanged from its prior value (the registers stay
byte-sized, so bits 8 and above of each byte are zero before and after). -/
theorem digitalWrite_frame_effect (pin : Nat) (value : Int) (s : ShieldState)
    (h1 : 1 ≤ pin) (h2 : pin ≤ 20) (hv : value = 0 ∨ value = 1) (hwf : wfRegs s) :
    ∃ s' tr, DigitalWrite pin value s = some (0, s', tr) ∧
      (∀ i, i < 8 → s'.outputRegister1_1.testBit i =
        (if pin ≤ 8 ∧ i = pin - 1 then decide (value = 1)
         else s.outputRegister1_1.testBit i)) ∧
      (∀ i, i < 8 → s'.outputRegister1_0.testBit i =
        (if 9 ≤ pin ∧ pin ≤ 16 ∧ i = pin - 9 then decide (value = 1)
         else s.outputRegister1_0.testBit i)) ∧
      (∀ i, i < 8 → s'.outputRegister2_1.testBit i =
        (if 17 ≤ pin ∧ i = pin - 17 then decide (value = 1)
         else s.outputRegister2_1.testBit i)) ∧
      s'.outputRegister2_0 = s.outputRegister2_0 ∧
      wfRegs s' := by
  obtain ⟨w1, w2, w3, w4, w5, w6⟩ := hwf
  by_cases hp8 : pin ≤ 8
  · -- pins 1..8: bit pin-1 of outputRegister1[1]
    unfold DigitalWrite
    rw [if_pos hp8, usub32_one h1 (by omega),
        show cShl1 (pin - 1) = some (1 <<< (pin - 1)) from if_pos (by omega)]
    simp only [verify_none_mk]
    refine ⟨_, _, rfl, ?_, ?_, ?_, rfl, ?_⟩
    · intro i hi
      dsimp only
      rcases hv with hv | hv <;> subst hv
      · rw [if_neg (by decide), and8_testBit _ _ _ w4 (by omega)]
        simp [hp8]
      · rw [if_pos (by decide), or8_testBit _ _ _ w4 (by omega)]
        simp [hp8]
    · intro i hi
      dsimp only
      rw [if_neg (by omega)]
    · intro i hi
      dsimp only
      rw [if_neg (by omega)]
    · rcases hv with hv | hv <;> subst hv
      · refine ⟨w1, w2, w3, ?_, w5, w6⟩
        rw [if_neg (by decide)]
        exact lt_of_le_of_lt Nat.and_le_left w4
      · refine ⟨w1, w2, w3, ?_, w5, w6⟩
        rw [if_pos (by decide)]
        exact Nat.mod_lt _ (by norm_num)
  · by_cases hp16 : pin ≤ 16
    · -- pins 9..16: bit pin-9 of outputRegister1[0]
      unfold DigitalWrite
      rw [if_neg hp8, if_pos ⟨by omega, hp16⟩]
      simp only [setBit8, clearBit8, verify_none_mk]
      refine ⟨_, _, rfl, ?_, ?_, ?_, rfl, ?_⟩
      · intro i hi
        dsimp only
        rw [if_neg (by omega)]
      · intro i hi
        dsimp only
        rcases hv with hv | hv <;> subst hv
        · rw [if_neg (by decide), and8_testBit _ _ _ w3 (by omega)]
          simp [show 9 ≤ pin by omega, hp16]
        · rw [if_pos (by decide), or8_testBit _ _ _ w3 (by omega)]
          simp [show 9 ≤ pin by omega, hp16]
      · intro i hi
        dsimp only
        rw [if_neg (by omega)]
      · rcases hv with hv | hv <;> subst hv
        · refine ⟨w1, w2, ?_, w4, w5, w6⟩
          rw [if_neg (by decide)]
          exact lt_of_le_of_lt Nat.and_le_left w3
        · refine ⟨w1, w2, ?_, w4, w5, w6⟩
          rw [if_pos (by decide)]
          exact Nat.mod_lt _ (by norm_num)
    · -- pins 17..20: bit pin-17 of outputRegister2[1]
      unfold DigitalWrite
      rw [if_neg hp8, if_neg (by omega), if_pos ⟨by omega, h2⟩]
      simp only [setBit8, clearBit8, verify_none_mk]
      refine ⟨_, _, rfl, ?_, ?_, ?_, rfl, ?_⟩
      · intro i hi
        dsimp only
        rw [if_neg (by omega)]
      · intro i hi
        dsimp only
        rw [if_neg (by omega)]
      · intro i hi
        dsimp only
        rcases hv with hv | hv <;> subst hv
        · rw [if_neg (by decide), and8_testBit _ _ _ w6 (by omega)]
          simp [show 17 ≤ pin by omega]
        · rw [if_pos (by decide), or8_testBit _ _ _ w6 (by omega)]
          simp [show 17 ≤ pin by omega]
      · rcases hv with hv | hv <;> subst hv
        · refine ⟨w1, w2, w3, w4, w5, ?_⟩
          rw [if_neg (by decide)]
          exact lt_of_le_of_lt Nat.and_le_left w6
        · refine ⟨w1, w2, w3, w4, w5, ?_⟩
          rw [if_pos (by decide)]
          exact Nat.mod_lt _ (by norm_num)

/-- C4 witness: writing level 1 to pin 3 from the initial state sets exactly
bit 2 of outputRegister1[1] and changes nothing else. -/
theorem digitalWrite_frame_effect_witness :
    ∃ s' tr, DigitalWrite 3 1 initState = some (0, s', tr) ∧
      (∀ i, i < 8 → s'.outputRegister1_1.testBit i =
        (if 3 ≤ 8 ∧ i = 3 - 1 then decide ((1 : Int) = 1)
         else initState.outputRegister1_1.testBit i)) ∧
      (∀ i, i < 8 → s'.outputRegister1_0.testBit i =
        (if 9 ≤ 3 ∧ 3 ≤ 16 ∧ i = 3 - 9 then decide ((1 : Int) = 1)
         else initState.outputRegister1_0.testBit i)) ∧
      (∀ i, i < 8 → s'.outputRegister2_1.testBit i =
        (if 17 ≤ 3 ∧ i = 3 - 17 then decide ((1 : Int) = 1)
         else initState.outputRegister2_1.testBit i)) ∧
      s'.outputRegister2_0 = initState.outputRegister2_0 ∧
      wfRegs s' :=
  digitalWrite_frame_effect 3 1 initState (by decide) (by decide) (by decide)
    ⟨by decide, by decide, by decide, by decide, by decide, by decide⟩

/-- C5 (code bug evaluation): DigitalWrite(0, 1) is not rejected: pin 0
enters the pin <= 8 branch, where the shift count pin_number - 1 wraps to
2^32 - 1 and the C shift `1 << (pin_number - 1)` is undefined behaviour
(modelled as none), instead of returning -1 as the claim - and the code's
own range-check message - require. -/
theorem digitalWrite_pin_zero_ub :
    DigitalWrite 0 1 initState = none ∧ usub32 0 1 = 4294967295 := by
  decide

/-- C6 (code bug evaluation): DigitalRead(0) is not rejected: pin 0 enters
the pin <= 8 branch and getBit shifts by the wrapped count 2^32 - 1,
undefined behaviour (modelled as none), instead of returning -1 as the
claim requires. -/
theorem digitalRead_pin_zero_ub :
    DigitalRead 0 0 0 initState = none ∧ usub32 0 1 = 4294967295 := by
  decide

/-- C7: when the 2-byte duplex read in ReadAnalog yields a raw value
exceeding 4095, the function masks the high nibble of the first byte and
returns ((b0 & 0x0F) << 8) + b1 rather than the raw value, and this
overflow path returns early without restoring None mode: the bus stays in
ADC mode and the trace contains neither the switch to None nor its
verification. -/
theorem analogRead_overflow_masked (port b0 b1 : Nat) (s : ShieldState) (hp : port ≤ 7)
    (hov : (b0 <<< 8) + b1 > ADC_MAXIMUM) :
    ∃ s', AnalogRead port b0 b1 s =
        some (((b0 &&& 0x0F) <<< 8) + b1, s',
              [ Ev.setMode ADC, Ev.spiTransfer (adcConversion.getD port 0),
                Ev.spiTransferRead 2]) ∧
      GetShieldMode s'.gpio = ADC ∧
      Ev.setMode NONE ∉ [ Ev.setMode ADC, Ev.spiTransfer (adcConversion.getD port 0),
                          Ev.spiTransferRead 2] ∧
      Ev.verify NONE ∉ [ Ev.setMode ADC, Ev.spiTransfer (adcConversion.getD port 0),
                         Ev.spiTransferRead 2] := by
  unfold AnalogRead
  rw [if_neg (show ¬(port > 7) by omega)]
  dsimp only
  rw [if_pos hov]
  refine ⟨_, rfl, rfl, ?_, ?_⟩
  · simp [NONE, ADC]
  · simp

/-- C7 witness: raw bytes {0x1F, 0xFF} give the raw value 8191 > 4095 and
the masked return value 4095, with the bus left in ADC mode. -/
theorem analogRead_overflow_masked_witness :
    (∃ s', AnalogRead 0 0x1F 0xFF initState =
        some (4095, s',
              [ Ev.setMode ADC, Ev.spiTransfer (adcConversion.getD 0 0),
                Ev.spiTransferRead 2]) ∧
      GetShieldMode s'.gpio = ADC ∧
      Ev.setMode NONE ∉ [ Ev.setMode ADC, Ev.spiTransfer (adcConversion.getD 0 0),
                          Ev.spiTransferRead 2] ∧
      Ev.verify NONE ∉ [ Ev.setMode ADC, Ev.spiTransfer (adcConversion.getD 0 0),
                         Ev.spiTransferRead 2]) ∧
    (0x1F <<< 8) + 0xFF = 8191 ∧ (4095 : Nat) ≠ 8191 :=
  ⟨analogRead_overflow_masked 0 0x1F 0xFF initState (by decide) (by decide), by decide, by decide⟩

/-- C8 counterexample: PinMode(1, DIO) performs its transport exchange (the
internal-register SPI write) yet returns with the bus still in INTERNAL_REG
mode and with no switch back to None and no verification in its trace. -/
theorem pinMode_not_idle_counterexample :
    rTrace (PinMode 1 DIO initState) =
      [ Ev.setMode INTERNAL_REG, Ev.spiWrite [255, 254]] ∧
    Ev.setMode NONE ∉ rTrace (PinMode 1 DIO initState) ∧
    Ev.verify NONE ∉ rTrace (PinMode 1 DIO initState) ∧
    stMode (PinMode 1 DIO initState) = some INTERNAL_REG ∧
    (INTERNAL_REG : Int) ≠ NONE := by
  decide

/-- C8 (amended): every pin-level API call that performs its transport
exchange switches the bus back to the idle None mode and re-verifies it
before returning its result, except PinMode - whose success path leaves the
bus in InternalReg - and ReadAnalog's overflow path: DigitalWrite (any pin
at least 1), DigitalRead (any pin at least 1) and AnalogWrite always end
idle, and AnalogRead ends idle on the non-overflow path with a valid
port. -/
theorem api_returns_to_idle :
    (∀ (pin : Nat) (value : Int) (s : ShieldState), 1 ≤ pin →
      endsIdle (DigitalWrite pin value s)) ∧
    (∀ (pin in0 in1 : Nat) (s : ShieldState), 1 ≤ pin →
      endsIdle (DigitalRead pin in0 in1 s)) ∧
    (∀ (port b0 b1 : Nat) (s : ShieldState), port ≤ 7 → (b0 <<< 8) + b1 ≤ ADC_MAXIMUM →
      endsIdle (AnalogRead port b0 b1 s)) ∧
    (∀ (addr mv : Nat) (s : ShieldState), endsIdle (AnalogWrite addr mv s)) := by
  refine ⟨?_, ?_, ?_, ?_⟩
  · intro pin value s h1
    by_cases hp8 : pin ≤ 8
    · unfold DigitalWrite
      rw [if_pos hp8, usub32_one h1 (by omega),
          show cShl1 (pin - 1) = some (1 <<< (pin - 1)) from if_pos (by omega)]
      simp only [verify_none_mk]
      exact ⟨rfl, [ Ev.setMode OUTPUT_REG_1,
                    Ev.spiWrite [s.outputRegister1_0,
                      if value = HIGH then (s.outputRegister1_1 ||| 1 <<< (pin - 1)) % 256
                      else s.outputRegister1_1 &&& (255 ^^^ 1 <<< (pin - 1) % 256)]], rfl⟩
    · by_cases hp16 : pin ≤ 16
      · unfold DigitalWrite
        rw [if_neg hp8, if_pos ⟨by omega, hp16⟩]
        simp only [verify_none_mk]
        exact ⟨rfl, [ Ev.setMode OUTPUT_REG_1,
                      Ev.spiWrite [if value = HIGH then setBit8 s.outputRegister1_0 (pin - 9)
                                   else clearBit8 s.outputRegister1_0 (pin - 9),
                                   s.outputRegister1_1]], rfl⟩
      · by_cases hp20 : pin ≤ 20
        · unfold DigitalWrite
          rw [if_neg hp8, if_neg (by omega), if_pos ⟨by omega, hp20⟩]
          simp only [verify_none_mk]
          exact ⟨rfl, [ Ev.setMode OUTPUT_REG_2,
                        Ev.spiWrite [s.outputRegister2_0,
                                     if value = HIGH then setBit8 s.outputRegister2_1 (pin - 17)
                                     else clearBit8 s.outputRegister2_1 (pin - 17)]], rfl⟩
        · unfold DigitalWrite
          rw [if_neg hp8, if_neg (by omega), if_neg (by omega)]
          simp only [verify_none_mk]
          exact ⟨rfl, [], rfl⟩
  · intro pin in0 in1 s h1
    unfold DigitalRead
    simp only [verify_none_mk]
    by_cases hp8 : pin ≤ 8
    · rw [if_pos hp8, show getBit in1 pin = some ((in1 >>> (pin - 1)) &&& 1) from by
          unfold getBit
          rw [usub32_one h1 (by omega), if_pos (by omega)]]
      exact ⟨rfl, [ Ev.setMode INPUT_REG, Ev.spiTransferRead 2], rfl⟩
    · by_cases hp10 : pin ≤ 10
      · rw [if_neg hp8, if_pos hp10, show getBit in0 (pin - 8) = some ((in0 >>> (pin - 8 - 1)) &&& 1) from by
            unfold getBit
            rw [usub32_one (by omega) (by omega), if_pos (by omega)]]
        exact ⟨rfl, [ Ev.setMode INPUT_REG, Ev.spiTransferRead 2], rfl⟩
      · rw [if_neg hp8, if_neg hp10]
        exact ⟨rfl, [ Ev.setMode INPUT_REG, Ev.spiTransferRead 2], rfl⟩
  · intro port b0 b1 s hp hres
    unfold AnalogRead
    rw [if_neg (by omega)]
    dsimp only
    rw [if_neg (by omega)]
    simp only [verify_none_mk]
    exact ⟨rfl, [ Ev.setMode ADC, Ev.spiTransfer (adcConversion.getD port 0),
                  Ev.spiTransferRead 2], rfl⟩
  · intro addr mv s
    unfold AnalogWrite
    simp only [verify_none_mk]
    refine ⟨rfl, [ Ev.setMode ADC, Ev.spiWrite [0x30], Ev.spiWrite [0x30],
                   Ev.spiTransferRead 2, Ev.setMode DAC,
                   Ev.spiWrite
                     [0x30 + if addr > 1 then 1 else addr,
                      (if mv > 2230 then 2230 else mv) * 18363228 / 160000000,
                      ((2 * ((if mv > 2230 then 2230 else mv) * 18363228) + 10000000)
                        / 20000000 % 16) <<< 4]], rfl⟩

/-- C8 witness: DigitalWrite(1, 1) from the initial state ends with the bus
in None, the switch and verification being its last two events. -/
theorem api_returns_to_idle_witness : endsIdle (DigitalWrite 1 1 initState) :=
  api_returns_to_idle.1 1 1 initState (by decide)

/-- C9 (amended): RpcPinWrite returns -1 without invoking any shield
operation (no mode switch, no register mutation, no transport exchange)
when the parameter name is empty or begins with 'g', when the digital
value parses to something other than 0 or 1, and when the character the
switch inspects (the second character after skipping two characters of
the port token) matches no port-digit case; the remaining malformed
inputs of the claim are not safely rejected: a missing pin component
reaches atoi(NULL) and a pin component other than 2/4 uses pin_map_num
uninitialised - undefined behaviour rather than -1 - while a wrong
non-'g' prefix is accepted outright (the counterexample). -/
theorem rpcPinWrite_rejects :
    (∀ (param value : String) (s : ShieldState),
      (param.data = [] ∨ param.data.head? = some 'g' ∨
        (catoi value.data ≠ 0 ∧ catoi value.data ≠ 1)) →
      RpcPinWrite param value s = some (-1, s, [])) ∧
    (∀ (param value : String) (s : ShieldState) (portTok pinTok : List Char),
      param.data.isEmpty = false → param.data.head? ≠ some 'g' →
      (catoi value.data = 0 ∨ catoi value.data = 1) →
      (strtokAll param.data '.').get? 1 = some portTok → 2 ≤ portTok.length →
      (strtokAll param.data '.').get? 2 = some pinTok →
      portTok.drop 2 ≠ [] →
      ((portTok.drop 2).drop 1).headD (Char.ofNat 0) ∉
        ([ '1', '2', '3', '4', '5', '6', '7', '8', '9', '0'] : List Char) →
      RpcPinWrite param value s = some (-1, s, [])) ∧
    (∀ (param value : String) (s : ShieldState) (portTok : List Char),
      param.data.isEmpty = false → param.data.head? ≠ some 'g' →
      (catoi value.data = 0 ∨ catoi value.data = 1) →
      (strtokAll param.data '.').get? 1 = some portTok → 2 ≤ portTok.length →
      (strtokAll param.data '.').get? 2 = none →
      RpcPinWrite param value s = none) ∧
    (∀ (param value : String) (s : ShieldState) (portTok pinTok : List Char),
      param.data.isEmpty = false → param.data.head? ≠ some 'g' →
      (catoi value.data = 0 ∨ catoi value.data = 1) →
      (strtokAll param.data '.').get? 1 = some portTok → 2 ≤ portTok.length →
      (strtokAll param.data '.').get? 2 = some pinTok →
      portTok.drop 2 ≠ [] →
      ((portTok.drop 2).drop 1).headD (Char.ofNat 0) ∈
        ([ '1', '2', '3', '4', '5', '6', '7', '8', '9', '0'] : List Char) →
      catoi pinTok ≠ 2 → catoi pinTok ≠ 4 →
      RpcPinWrite param value s = none) := by
  refine ⟨?_, ?_, ?_, ?_⟩
  · -- empty name, 'g' name, or non-0/1 value: free the copy and return -1
    intro param value s h
    unfold RpcPinWrite
    rcases h with h | h | h
    · rw [if_pos (by simp [h])]
    · rw [if_pos (by simp [h])]
    · by_cases hg : param.data.isEmpty || param.data.head? == some 'g'
      · rw [if_pos hg]
      · rw [if_neg hg]
        dsimp only
        rw [if_pos h]
  · -- switch default: no port-digit case matches, free and return -1
    intro param value s portTok pinTok h1 h2 hv hport hlen hpin hps hc
    obtain ⟨t0, rest3, htoks⟩ :
        ∃ t0 rest3, strtokAll param.data '.' = t0 :: portTok :: pinTok :: rest3 := by
      cases htoks : strtokAll param.data '.' with
      | nil => rw [htoks] at hport ; simp at hport
      | cons a l =>
        cases l with
        | nil => rw [htoks] at hport ; simp at hport
        | cons b l2 =>
          rw [htoks] at hport hpin
          simp only [List.get?_cons_succ, List.get?_cons_zero, Option.some.injEq] at hport
          subst hport
          cases l2 with
          | nil => simp at hpin
          | cons c l3 =>
            simp only [List.get?_cons_succ, List.get?_cons_zero, Option.some.injEq] at hpin
            subst hpin
            exact ⟨a, l3, rfl⟩
    unfold RpcPinWrite
    rw [if_neg (show ¬(param.data.isEmpty || param.data.head? == some 'g') = true by
      simp [h1, h2])]
    rw [if_neg (show ¬(catoi value.data ≠ 0 ∧ catoi value.data ≠ 1) by
      rcases hv with h | h <;> simp [h])]
    rw [htoks]
    simp only [List.head?_cons, List.get?_cons_succ, List.get?_cons_zero]
    rw [if_neg (show ¬(portTok.length < 2) by omega)]
    rw [if_neg (show ¬((portTok.drop 2).isEmpty = true) by simp [hps])]
    split
    all_goals simp_all
  · -- missing pin component: atoi(NULL), undefined behaviour
    intro param value s portTok h1 h2 hv hport hlen hpin
    obtain ⟨t0, htoks⟩ : ∃ t0, strtokAll param.data '.' = [t0, portTok] := by
      cases htoks : strtokAll param.data '.' with
      | nil => rw [htoks] at hport ; simp at hport
      | cons a l =>
        cases l with
        | nil => rw [htoks] at hport ; simp at hport
        | cons b l2 =>
          rw [htoks] at hport hpin
          simp only [List.get?_cons_succ, List.get?_cons_zero, Option.some.injEq] at hport
          subst hport
          cases l2 with
          | nil => exact ⟨a, rfl⟩
          | cons c l3 => simp at hpin
    unfold RpcPinWrite
    rw [if_neg (show ¬(param.data.isEmpty || param.data.head? == some 'g') = true by
      simp [h1, h2])]
    rw [if_neg (show ¬(catoi value.data ≠ 0 ∧ catoi value.data ≠ 1) by
      rcases hv with h | h <;> simp [h])]
    rw [htoks]
    simp only [List.head?_cons, List.get?_cons_succ, List.get?_cons_zero]
    rw [if_neg (show ¬(portTok.length < 2) by omega)]
    rfl
  · -- matched port digit with pin other than 2/4: pin_map_num uninitialised
    intro param value s portTok pinTok h1 h2 hv hport hlen hpin hps hc hp2 hp4
    obtain ⟨t0, rest3, htoks⟩ :
        ∃ t0 rest3, strtokAll param.data '.' = t0 :: portTok :: pinTok :: rest3 := by
      cases htoks : strtokAll param.data '.' with
      | nil => rw [htoks] at hport ; simp at hport
      | cons a l =>
        cases l with
        | nil => rw [htoks] at hport ; simp at hport
        | cons b l2 =>
          rw [htoks] at hport hpin
          simp only [List.get?_cons_succ, List.get?_cons_zero, Option.some.injEq] at hport
          subst hport
          cases l2 with
          | nil => simp at hpin
          | cons c l3 =>
            simp only [List.get?_cons_succ, List.get?_cons_zero, Option.some.injEq] at hpin
            subst hpin
            exact ⟨a, l3, rfl⟩
    unfold RpcPinWrite
    rw [if_neg (show ¬(param.data.isEmpty || param.data.head? == some 'g') = true by
      simp [h1, h2])]
    rw [if_neg (show ¬(catoi value.data ≠ 0 ∧ catoi value.data ≠ 1) by
      rcases hv with h | h <;> simp [h])]
    rw [htoks]
    simp only [List.head?_cons, List.get?_cons_succ, List.get?_cons_zero]
    rw [if_neg (show ¬(portTok.length < 2) by omega)]
    rw [if_neg (show ¬((portTok.drop 2).isEmpty = true) by simp [hps])]
    split
    all_goals first
      | (rw [if_neg hp2, if_neg hp4] ; rfl)
      | simp_all

/-- C9 counterexample: the wrongly prefixed name "wrong.cn11.2" is not
rejected: the call returns 0, not -1, and its trace shows the internal
register mode switch and the output register write. -/
theorem rpcPinWrite_wrong_prefix_counterexample :
    rVal (RpcPinWrite ("wrong.cn11.2") ("1") initState) = some 0 ∧
    rVal (RpcPinWrite ("wrong.cn11.2") ("1") initState) ≠ some (-1) ∧
    Ev.setMode INTERNAL_REG ∈ rTrace (RpcPinWrite ("wrong.cn11.2") ("1") initState) ∧
    Ev.setMode OUTPUT_REG_1 ∈ rTrace (RpcPinWrite ("wrong.cn11.2") ("1") initState) := by
  decide

/-- C9 witness: the four proved cases at concrete inputs - a digital value
of "7" is rejected with -1, a port token "cnxx" whose inspected character
'x' matches no switch case is rejected with -1 (both with unchanged state
and an empty trace), a missing pin component ("shield.cn11") hits
atoi(NULL), and a pin component of 3 uses pin_map_num uninitialised. -/
theorem rpcPinWrite_rejects_witness :
    RpcPinWrite ("shield.cn11.2") ("7") initState = some (-1, initState, []) ∧
    RpcPinWrite ("shield.cnxx.2") ("1") initState = some (-1, initState, []) ∧
    RpcPinWrite ("shield.cn11") ("1") initState = none ∧
    RpcPinWrite ("shield.cn11.3") ("1") initState = none :=
  ⟨rpcPinWrite_rejects.1 ("shield.cn11.2") ("7") initState
      (Or.inr (Or.inr ⟨by decide, by decide⟩)),
   rpcPinWrite_rejects.2.1 ("shield.cnxx.2") ("1") initState
      ([ 'c', 'n', 'x', 'x']) ([ '2']) (by decide) (by decide) (by decide)
      (by decide) (by decide) (by decide) (by decide) (by decide),
   rpcPinWrite_rejects.2.2.1 ("shield.cn11") ("1") initState
      ([ 'c', 'n', '1', '1']) (by decide) (by decide) (by decide)
      (by decide) (by decide) (by decide),
   rpcPinWrite_rejects.2.2.2 ("shield.cn11.3") ("1") initState
      ([ 'c', 'n', '1', '1']) ([ '3']) (by decide) (by decide) (by decide)
      (by decide) (by decide) (by decide) (by decide) (by decide)
      (by decide) (by decide)⟩

/-- C10: for every value string that does not begin with "d", "sp" or "si"
(by the code's strncmp prefix tests), RpcChangeMode requests SPI mode (not
DIO) for the parsed segment: the fallback mode when no prefix matches is
SPI. -/
theorem rpcChangeMode_fallback_spi (param value : String) (s : ShieldState)
    (hlen : 9 ≤ param.data.length)
    (hd : strncmpEq [ 'd', 'i', 'o'] value.data 1 = false)
    (hsp : strncmpEq [ 's', 'p', 'i'] value.data 2 = false)
    (hsi : strncmpEq [ 's', 'i', 'o'] value.data 2 = false) :
    RpcChangeMode param value s =
      PinMode (intToUInt (catoi ((param.data.drop 9).take 2) - 10)) SPI s ∧
    (SPI : Int) ≠ DIO := by
  constructor
  · unfold RpcChangeMode
    rw [if_neg (by omega)]
    dsimp only
    rw [if_neg (by rw [hd] ; exact Bool.false_ne_true),
        if_neg (by rw [hsp] ; exact Bool.false_ne_true),
        if_neg (by rw [hsi] ; exact Bool.false_ne_true)]
  · decide

/-- C10 witness: the unrecognized mode string "none" requests SPI for
segment 5 (parameter "shield.cn15"). -/
theorem rpcChangeMode_fallback_spi_witness :
    RpcChangeMode ("shield.cn15") ("none") initState = PinMode 5 SPI initState ∧
    (SPI : Int) ≠ DIO :=
  rpcChangeMode_fallback_spi ("shield.cn15") ("none") initState (by decide) (by decide) (by decide) (by decide)
